import Mathlib

/-!
Shallow embedding of the background input-delivery engine
(`background_windows.py`, `independent_mouse.py`, `virtual_display.py`)
and proofs about its specified behaviour.

Conventions used throughout:
* Screen / client coordinates are integers (`ℤ`); quantities that Python
  computes with `float` division are embedded as exact rationals (`ℚ`).
* A fallible Win32 / `pywin32` call is modelled by a `Bool` drawn from an
  environment record: `true` means the call returns normally, `false`
  means it raises.  `try:/except:` blocks of the source become explicit
  case analysis on those flags.
* Operations whose exceptions can escape to the caller return
  `Except PyErr Bool`; operations that the source wraps in a catch-all
  handler return plain `Bool`.
-/

namespace GameScript

/-- Error values distinguishing where an escaped Python exception came from. -/
inductive PyErr where
  | postError : PyErr
  | delegateError : PyErr
deriving DecidableEq, Repr

/-! ## Display topology model (`virtual_display.py`) -/

/-- One entry of `VirtualDisplayManager.displays`: the dictionary built in
`update_displays_info` (id, primary flag, geometry, attached flag; the
`name`/`device_string`/`refresh_rate`/`bit_depth` fields play no role in any
claim and are omitted). -/
structure Display where
  id : ℕ
  is_primary : Bool
  left : ℤ
  top : ℤ
  width : ℤ
  height : ℤ
  is_attached : Bool
deriving DecidableEq, Repr

/-- The mutable state of `VirtualDisplayManager`. -/
structure DisplayState where
  displays : List Display
  main_display : Option Display
  virtual_display : Option Display
deriving DecidableEq, Repr

/-- The primary-display record built from `GetSystemMetrics` in
`update_displays_info` (lines 59-75 of `virtual_display.py`). -/
def mainDisplayInfo (w h : ℤ) : Display :=
  ⟨0, true, 0, 0, w, h, true⟩

/-- The synthesized default virtual display (lines 92-104): placed at the
right edge of the primary, same size, not primary, not attached; its id is
the length of the display list at the moment it is appended. -/
def defaultVirtualDisplay (main : Display) (n : ℕ) : Display :=
  ⟨n, false, main.width, 0, main.width, main.height, false⟩

/-- `VirtualDisplayManager.update_displays_info`.  The previous state is
discarded (lines 44-46 reset `displays`, `virtual_display`, `main_display`);
`metrics` is the outcome of the `GetSystemMetrics` queries: `some (w, h)` if
both return, `none` if they raise (the `except` at line 81).  Enumeration
"method 1" is disabled in the source (line 51, `method1_success = False`), so
the primary is always rebuilt from the metrics, and when the metrics fail the
display list stays empty and no virtual display is synthesized (line 89
requires `self.main_display`). -/
def update_displays_info (_s : DisplayState) (metrics : Option (ℤ × ℤ)) :
    DisplayState :=
  match metrics with
  | none => ⟨[], none, none⟩
  | some (w, h) =>
    let main := mainDisplayInfo w h
    let displays := [main]
    let virt := defaultVirtualDisplay main displays.length
    ⟨displays ++ [virt], some main, some virt⟩

/-- The geometric content of a display entry: origin and size. -/
def rectOf (d : Display) : ℤ × ℤ × ℤ × ℤ :=
  (d.left, d.top, d.width, d.height)

/-! ## Coordinate conversion for hardware injection (`independent_mouse.py`) -/

/-- Python `int()` applied to a (real-valued) quantity: truncation toward
zero. -/
def pyInt (q : ℚ) : ℤ :=
  if q < 0 then ⌈q⌉ else ⌊q⌋

/-- The absolute branch of `IndependentMouse.send_mouse_input`
(lines 223-246): translate the point by the target display's origin, clamp
into `[0, width] × [0, height]`, then compute
`int((target / size) * 65535)` per axis.  Exact rational arithmetic stands
in for Python floats. -/
def send_mouse_input_abs (d : Display) (dx dy : ℚ) : ℤ × ℤ :=
  let screen_width : ℚ := (d.width : ℚ)
  let screen_height : ℚ := (d.height : ℚ)
  let screen_left : ℚ := (d.left : ℚ)
  let screen_top : ℚ := (d.top : ℚ)
  let target_x := max 0 (min (dx - screen_left) screen_width)
  let target_y := max 0 (min (dy - screen_top) screen_height)
  (pyInt (target_x / screen_width * 65535), pyInt (target_y / screen_height * 65535))

/-- Modelled from the spec (§4.3): the claimed conversion formula
`round(65535 * (p - origin) / size)`, clamped per axis before rounding.
Stated only to be compared with `send_mouse_input_abs`, the definition
taken from the source. -/
def specDeviceUnit (origin size p : ℚ) : ℤ :=
  round (max 0 (min (65535 * (p - origin) / size) 65535))

/-! ## Theorems: display topology -/

/-- Claim C4: after every refresh in which the primary metrics query
succeeds with `(w, h)` (and hence no secondary physical display is detected
— enumeration is disabled in the source), the display list is nonempty, its
head is the primary at origin `(0,0)` with size `(w,h)`, and it contains
exactly one unattached synthesized display, whose origin is `(w, 0)`, size
`(w, h)`, `is_primary = false`, `is_attached = false`. -/
theorem C4_virtual_display_synthesis (s : DisplayState) (w h : ℤ) :
    (update_displays_info s (some (w, h))).displays ≠ [] ∧
    (update_displays_info s (some (w, h))).displays.head? =
      some (mainDisplayInfo w h) ∧
    ((update_displays_info s (some (w, h))).displays.filter
        fun d => !d.is_attached).map
      (fun d => (d.left, d.top, d.width, d.height, d.is_primary, d.is_attached)) =
      [(w, 0, w, h, false, false)] := by
  refine ⟨by simp [update_displays_info], rfl, rfl⟩

/-- Claim C8: refreshing the topology twice under an unchanged environment
(the metrics queries answer the same both times) yields topologically
identical display lists: same count, same primary, and the same rectangle
for each display. -/
theorem C8_refresh_idempotent (s : DisplayState) (metrics : Option (ℤ × ℤ)) :
    (update_displays_info (update_displays_info s metrics) metrics).displays.length =
      (update_displays_info s metrics).displays.length ∧
    (update_displays_info (update_displays_info s metrics) metrics).main_display =
      (update_displays_info s metrics).main_display ∧
    (update_displays_info (update_displays_info s metrics) metrics).displays.map rectOf =
      (update_displays_info s metrics).displays.map rectOf := by
  refine ⟨rfl, rfl, rfl⟩

/-! ## Theorems: absolute-to-device-unit conversion -/

/-- Claim C2 counterexample: the source converts with Python `int()`
(truncation), not rounding.  Mapping `(2880, 540)` into the display with
origin `(1920, 0)` and size `(1920, 1080)` yields `(32767, 32767)` in the
code, while the spec's formula `round(65535 * (p - origin) / size)` yields
`32768` on each axis. -/
theorem C2_truncation_counterexample :
    send_mouse_input_abs ⟨1, false, 1920, 0, 1920, 1080, false⟩ 2880 540 =
      (32767, 32767) ∧
    specDeviceUnit 1920 1920 2880 = 32768 ∧
    specDeviceUnit 0 1080 540 = 32768 ∧
    ((32767, 32767) : ℤ × ℤ) ≠ (32768, 32768) := by
  refine ⟨?_, ?_, ?_, by decide⟩
  · simp only [send_mouse_input_abs, pyInt]
    norm_num
  · simp only [specDeviceUnit, round_eq]
    norm_num
  · simp only [specDeviceUnit, round_eq]
    norm_num

/-- Claim C2 amended: for every point inside the target display's rectangle
the conversion returns, per axis, `⌊65535 * (p - origin) / size⌋`
(truncation, as computed by Python `int()`, rather than rounding), the
display-relative offset having been clamped into `[0, size]` beforehand
(a no-op for interior points); the result lies in `[0, 65535]` on each
axis.  In particular the scenario point maps to `(32767, 32767)`. -/
theorem C2_device_unit_floor (d : Display) (dx dy : ℚ)
    (hw : 0 < d.width) (hh : 0 < d.height)
    (hx1 : (d.left : ℚ) ≤ dx) (hx2 : dx < (d.left : ℚ) + (d.width : ℚ))
    (hy1 : (d.top : ℚ) ≤ dy) (hy2 : dy < (d.top : ℚ) + (d.height : ℚ)) :
    send_mouse_input_abs d dx dy =
      (⌊(dx - (d.left : ℚ)) / (d.width : ℚ) * 65535⌋,
       ⌊(dy - (d.top : ℚ)) / (d.height : ℚ) * 65535⌋) ∧
    0 ≤ ⌊(dx - (d.left : ℚ)) / (d.width : ℚ) * 65535⌋ ∧
    ⌊(dx - (d.left : ℚ)) / (d.width : ℚ) * 65535⌋ ≤ 65535 ∧
    0 ≤ ⌊(dy - (d.top : ℚ)) / (d.height : ℚ) * 65535⌋ ∧
    ⌊(dy - (d.top : ℚ)) / (d.height : ℚ) * 65535⌋ ≤ 65535 := by
  have hwQ : (0 : ℚ) < (d.width : ℚ) := by exact_mod_cast hw
  have hhQ : (0 : ℚ) < (d.height : ℚ) := by exact_mod_cast hh
  have hx0 : (0 : ℚ) ≤ dx - (d.left : ℚ) := by linarith
  have hxw : dx - (d.left : ℚ) ≤ (d.width : ℚ) := by linarith
  have hy0 : (0 : ℚ) ≤ dy - (d.top : ℚ) := by linarith
  have hyh : dy - (d.top : ℚ) ≤ (d.height : ℚ) := by linarith
  have hqx0 : (0 : ℚ) ≤ (dx - (d.left : ℚ)) / (d.width : ℚ) * 65535 := by positivity
  have hqy0 : (0 : ℚ) ≤ (dy - (d.top : ℚ)) / (d.height : ℚ) * 65535 := by positivity
  have hqx65 : (dx - (d.left : ℚ)) / (d.width : ℚ) * 65535 ≤ 65535 := by
    have h1 : (dx - (d.left : ℚ)) / (d.width : ℚ) ≤ 1 := by
      rw [div_le_one hwQ]
      exact hxw
    nlinarith
  have hqy65 : (dy - (d.top : ℚ)) / (d.height : ℚ) * 65535 ≤ 65535 := by
    have h1 : (dy - (d.top : ℚ)) / (d.height : ℚ) ≤ 1 := by
      rw [div_le_one hhQ]
      exact hyh
    nlinarith
  refine ⟨?_, ?_, ?_, ?_, ?_⟩
  · simp only [send_mouse_input_abs, pyInt]
    rw [min_eq_left hxw, max_eq_right hx0, min_eq_left hyh, max_eq_right hy0,
      if_neg (not_lt.mpr hqx0), if_neg (not_lt.mpr hqy0)]
  · exact Int.le_floor.mpr (by exact_mod_cast hqx0)
  · have h : ((⌊(dx - (d.left : ℚ)) / (d.width : ℚ) * 65535⌋ : ℤ) : ℚ) ≤ 65535 :=
      le_trans (Int.floor_le _) hqx65
    exact_mod_cast h
  · exact Int.le_floor.mpr (by exact_mod_cast hqy0)
  · have h : ((⌊(dy - (d.top : ℚ)) / (d.height : ℚ) * 65535⌋ : ℤ) : ℚ) ≤ 65535 :=
      le_trans (Int.floor_le _) hqy65
    exact_mod_cast h

/-- Witness for C2 amended: the scenario instance, hypotheses discharged at
the concrete display and point. -/
theorem C2_device_unit_floor_witness :
    send_mouse_input_abs ⟨1, false, 1920, 0, 1920, 1080, false⟩ 2880 540 =
      (32767, 32767) := by
  have h := C2_device_unit_floor ⟨1, false, 1920, 0, 1920, 1080, false⟩ 2880 540
    (by norm_num) (by norm_num) (by norm_num) (by norm_num) (by norm_num) (by norm_num)
  rw [h.1]
  norm_num

/-! ## Coordinate pipeline for embedded windows (`background_windows.py`) -/

/-- The embedded-window branch of `BackgroundWindows.touch`
(lines 294-321): the caller's point is used directly as client coordinates
(`client_x = int(screen_x)`, no origin subtraction and no screen-to-client
call), then each component is clamped — `if client_x < 0 or client_x >=
client_width: client_x = max(0, min(client_x, client_width - 1))` — and
likewise for `y`. -/
def touchEmbeddedCoords (x y client_width client_height : ℤ) : ℤ × ℤ :=
  ((if x < 0 ∨ client_width ≤ x then max 0 (min x (client_width - 1)) else x),
   (if y < 0 ∨ client_height ≤ y then max 0 (min y (client_height - 1)) else y))

/-- Claim C5: for an embedded target the pipeline passes the point through
with no transform and clamps each component into the half-open client
rectangle `[0, client_width) × [0, client_height)`; a point already inside
the client rectangle is returned unchanged. -/
theorem C5_embedded_passthrough_clamp (x y w h : ℤ) (hw : 0 < w) (hh : 0 < h) :
    (0 ≤ (touchEmbeddedCoords x y w h).1 ∧ (touchEmbeddedCoords x y w h).1 < w ∧
     0 ≤ (touchEmbeddedCoords x y w h).2 ∧ (touchEmbeddedCoords x y w h).2 < h) ∧
    (0 ≤ x → x < w → 0 ≤ y → y < h → touchEmbeddedCoords x y w h = (x, y)) := by
  simp only [touchEmbeddedCoords]
  constructor
  · refine ⟨?_, ?_, ?_, ?_⟩ <;> split_ifs <;> omega
  · intro h1 h2 h3 h4
    rw [if_neg (by omega), if_neg (by omega)]

/-- Witness for C5: the scenario point `(50, 60)` inside an `800 × 600`
client rectangle is returned unchanged and in bounds. -/
theorem C5_embedded_passthrough_clamp_witness :
    (0 ≤ (touchEmbeddedCoords 50 60 800 600).1 ∧
     (touchEmbeddedCoords 50 60 800 600).1 < 800 ∧
     0 ≤ (touchEmbeddedCoords 50 60 800 600).2 ∧
     (touchEmbeddedCoords 50 60 800 600).2 < 600) ∧
    touchEmbeddedCoords 50 60 800 600 = (50, 60) := by
  have h := C5_embedded_passthrough_clamp 50 60 800 600 (by decide) (by decide)
  exact ⟨h.1, h.2 (by decide) (by decide) (by decide) (by decide)⟩

/-! ## Message-mode click delivery (`_send_click_message`) -/

/-- Outcome environment for the four `PostMessage` calls issued by
`_send_click_message` (lines 412-432): mouse-move, button-down, button-up,
mouse-leave (left or right button as requested — the message identity does
not affect the control flow).  `true` means the call returns normally,
`false` that it raises. -/
structure PostEnv where
  move_ok : Bool
  down_ok : Bool
  up_ok : Bool
  leave_ok : Bool
deriving DecidableEq, Repr

/-- One `PostMessage` call as a fallible action. -/
def postCall (ok : Bool) : Except PyErr Unit :=
  if ok then Except.ok () else Except.error PyErr.postError

/-- The `try` body of `_send_click_message`: the four posts in order (the
`time.sleep(duration)` between down and up is a pure delay), succeeding
with `True` when none raises. -/
def sendClickMessageBody (e : PostEnv) : Except PyErr Bool :=
  (postCall e.move_ok).bind fun _ =>
  (postCall e.down_ok).bind fun _ =>
  (postCall e.up_ok).bind fun _ =>
  (postCall e.leave_ok).bind fun _ =>
  Except.ok true

/-- `BackgroundWindows._send_click_message` (lines 395-437): the body runs
under `except Exception: return False`, so a raising post becomes `False`
and a clean run returns `True`. -/
def send_click_message (e : PostEnv) : Bool :=
  match sendClickMessageBody e with
  | Except.ok b => b
  | Except.error _ => false

/-- Claim C3: a message-mode click is reported successful exactly when all
of its underlying post calls return without raising; any raising post makes
it report failure — silent dropping by the target is invisible. -/
theorem C3_failure_iff_post_raises (e : PostEnv) :
    send_click_message e = true ↔
      (e.move_ok = true ∧ e.down_ok = true ∧ e.up_ok = true ∧ e.leave_ok = true) := by
  obtain ⟨m, d, u, l⟩ := e
  cases m <;> cases d <;> cases u <;> cases l <;>
    simp [send_click_message, sendClickMessageBody, postCall, Except.bind]

/-! ## Hardware-injection teleport click
(`IndependentMouse.click_background_fallback`, lines 445-492) -/

/-- Outcome environment for the Win32 calls made by one teleport click:
`GetCursorPos` (the save), `SetCursorPos` to the target, the button-down
`mouse_event`, the button-up `mouse_event`, and the restoring
`SetCursorPos`.  `true` means the call returns normally. -/
structure TeleportEnv where
  get_ok : Bool
  set_target_ok : Bool
  down_ok : Bool
  up_ok : Bool
  restore_ok : Bool
deriving DecidableEq, Repr

/-- The single shared system cursor. -/
structure MouseWorld where
  cursor : ℤ × ℤ
deriving DecidableEq, Repr

/-- `IndependentMouse.click_background_fallback`, with the cursor tracked
explicitly.  Control flow of the source: save position, move to target,
button-down, then `time.sleep(0.02)` — which ALWAYS raises `NameError`
because `independent_mouse.py` never imports `time` — so the button-up and
the in-line restore of the success path are unreachable; every raise lands
in the `except` handler, which attempts `SetCursorPos(original_pos)` inside
a bare `try/except: pass` and returns `False`.  When `GetCursorPos` itself
raised, `original_pos` is unbound, so the handler's restore raises
`NameError` and is swallowed, leaving the (never moved) cursor in place. -/
def click_background_fallback (e : TeleportEnv) (w : MouseWorld) (target : ℤ × ℤ) :
    Bool × MouseWorld :=
  if ¬ e.get_ok then
    (false, w)
  else
    let original_pos := w.cursor
    if ¬ e.set_target_ok then
      (false, if e.restore_ok then ⟨original_pos⟩ else w)
    else
      let w1 : MouseWorld := ⟨target⟩
      if ¬ e.down_ok then
        (false, if e.restore_ok then ⟨original_pos⟩ else w1)
      else
        (false, if e.restore_ok then ⟨original_pos⟩ else w1)

/-- Claim C6 counterexample: when the button press path raises (here the
ever-raising hold step) and the restoring `SetCursorPos` also raises, the
handler swallows the error and the cursor is left at the teleport target
`(5, 5)`, not at the saved position `(1, 1)`. -/
theorem C6_restore_counterexample :
    (click_background_fallback ⟨true, true, true, true, false⟩ ⟨(1, 1)⟩ (5, 5)).2.cursor
      = (5, 5) ∧
    ((5, 5) : ℤ × ℤ) ≠ (1, 1) := by
  exact ⟨rfl, by decide⟩

/-- Claim C6 amended: on every execution path on which the restoring
`SetCursorPos` call itself returns normally — including the paths where the
cursor move, the button press, or the hold step raises — the cursor
observed after the operation equals the position saved before it; only a
raise of the restoring call itself (swallowed by the bare handler) can
leave the cursor at the teleport target. -/
theorem C6_cursor_restored (e : TeleportEnv) (w : MouseWorld) (target : ℤ × ℤ)
    (hres : e.restore_ok = true) :
    (click_background_fallback e w target).2.cursor = w.cursor := by
  obtain ⟨g, s, d, u, r⟩ := e
  cases hres
  cases g <;> cases s <;> cases d <;> cases u <;>
    simp [click_background_fallback]

/-- Witness for C6 amended: a concrete teleport whose press raises but
whose restore succeeds puts the cursor back at `(1, 1)`. -/
theorem C6_cursor_restored_witness :
    (click_background_fallback ⟨true, true, false, true, true⟩ ⟨(1, 1)⟩ (5, 5)).2.cursor
      = (1, 1) :=
  C6_cursor_restored ⟨true, true, false, true, true⟩ ⟨(1, 1)⟩ (5, 5) rfl

/-! ## Escalation state machine (`BackgroundWindows.touch`, lines 326-393) -/

/-- The two delivery strategies of `BackgroundWindows.click_method`. -/
inductive ClickMethod where
  | postmessage : ClickMethod
  | sendinput : ClickMethod
deriving DecidableEq, Repr

/-- The per-target mutable state set up in `BackgroundWindows.__init__`
(lines 61-65): current strategy, consecutive `PostMessage` failure count,
and the escalation threshold. -/
structure Binding where
  click_method : ClickMethod
  postmessage_fail_count : ℕ
  max_postmessage_failures : ℕ
deriving DecidableEq, Repr

/-- The freshly constructed binding: message mode, zero failures,
threshold 3. -/
def initBinding : Binding :=
  ⟨ClickMethod.postmessage, 0, 3⟩

/-- Observable trace of one `touch` call: reported result, successor
binding state, and which delivery paths were exercised. -/
structure TouchResult where
  ok : Bool
  state : Binding
  used_message : Bool
  used_hardware : Bool
deriving DecidableEq, Repr

/-- The delivery branch of `BackgroundWindows.touch` (lines 326-393), after
the coordinate pipeline has produced the click point.  In message mode a
`PostMessage` click is attempted: on success the failure counter resets and
`True` is returned; on failure the counter increments and, exactly when it
reaches the threshold, `click_method` flips to `sendinput` and the same
logical click is retried once through `_send_input_click` →
`click_background_fallback` (the retry's result is the call's result);
below the threshold the call reports `False` with no retry.  In
`sendinput` mode the hardware path is used directly.  Nothing ever writes
`click_method` back to `postmessage`. -/
def touchStep (b : Binding) (msg : PostEnv) (hw : TeleportEnv) (w : MouseWorld)
    (target : ℤ × ℤ) : TouchResult × MouseWorld :=
  match b.click_method with
  | ClickMethod.postmessage =>
    if send_click_message msg then
      (⟨true, ⟨ClickMethod.postmessage, 0, b.max_postmessage_failures⟩, true, false⟩, w)
    else
      let count := b.postmessage_fail_count + 1
      if b.max_postmessage_failures ≤ count then
        let res := click_background_fallback hw w target
        (⟨res.1, ⟨ClickMethod.sendinput, count, b.max_postmessage_failures⟩, true, true⟩,
          res.2)
      else
        (⟨false, ⟨ClickMethod.postmessage, count, b.max_postmessage_failures⟩, true, false⟩,
          w)
  | ClickMethod.sendinput =>
    let res := click_background_fallback hw w target
    (⟨res.1, b, false, true⟩, res.2)

/-- Binding states reachable from a fresh `BackgroundWindows` instance by
any sequence of `touch` calls. -/
inductive ReachableBinding : Binding → Prop where
  | init : ReachableBinding initBinding
  | step : ∀ (b : Binding) (msg : PostEnv) (hw : TeleportEnv) (w : MouseWorld)
      (t : ℤ × ℤ), ReachableBinding b →
      ReachableBinding ((touchStep b msg hw w t).1.state)

/-- Evaluation of `touchStep` in message mode. -/
theorem touchStep_postmessage (cnt mx : ℕ) (msg : PostEnv) (hw : TeleportEnv)
    (w : MouseWorld) (t : ℤ × ℤ) :
    touchStep ⟨ClickMethod.postmessage, cnt, mx⟩ msg hw w t =
      if send_click_message msg then
        (⟨true, ⟨ClickMethod.postmessage, 0, mx⟩, true, false⟩, w)
      else if mx ≤ cnt + 1 then
        (⟨(click_background_fallback hw w t).1, ⟨ClickMethod.sendinput, cnt + 1, mx⟩,
            true, true⟩,
          (click_background_fallback hw w t).2)
      else
        (⟨false, ⟨ClickMethod.postmessage, cnt + 1, mx⟩, true, false⟩, w) := rfl

/-- Evaluation of `touchStep` in hardware mode. -/
theorem touchStep_sendinput (cnt mx : ℕ) (msg : PostEnv) (hw : TeleportEnv)
    (w : MouseWorld) (t : ℤ × ℤ) :
    touchStep ⟨ClickMethod.sendinput, cnt, mx⟩ msg hw w t =
      (⟨(click_background_fallback hw w t).1, ⟨ClickMethod.sendinput, cnt, mx⟩,
          false, true⟩,
        (click_background_fallback hw w t).2) := rfl

/-- Invariant of the escalation machine: the threshold stays 3, and while
in message mode the consecutive failure count is at most 2. -/
theorem reachableBinding_inv (b : Binding) (hb : ReachableBinding b) :
    b.max_postmessage_failures = 3 ∧
    (b.click_method = ClickMethod.postmessage → b.postmessage_fail_count ≤ 2) := by
  induction hb with
  | init => exact ⟨rfl, fun _ => Nat.zero_le 2⟩
  | step b msg hw w t hb ih =>
    obtain ⟨hmax, hcnt⟩ := ih
    obtain ⟨cm, cnt, mx⟩ := b
    have hmx : mx = 3 := hmax
    subst hmx
    cases cm with
    | postmessage =>
      have hc2 : cnt ≤ 2 := hcnt rfl
      rw [touchStep_postmessage]
      split_ifs with hs hth
      · exact ⟨rfl, fun _ => Nat.zero_le 2⟩
      · exact ⟨rfl, fun h => absurd h (by simp)⟩
      · exact ⟨rfl, fun _ => by change cnt + 1 ≤ 2; omega⟩
    | sendinput =>
      rw [touchStep_sendinput]
      exact ⟨rfl, fun h => absurd h (by simp)⟩

/-- Claim C1: for a binding with threshold 3 starting in message mode with
zero failures — and in fact for every reachable binding state — each failed
message-mode click increments the failure counter and each successful one
resets it to 0; the mode flips from message to hardware exactly when the
counter reaches 3, and at that click (and only then) the same logical click
is retried once through the hardware path; failures below the threshold
report `False` without any hardware retry; once in hardware mode every
click uses the hardware path and the mode never returns to message mode. -/
theorem C1_escalation_state_machine (b : Binding) (hb : ReachableBinding b) :
    b.max_postmessage_failures = 3 ∧
    (b.click_method = ClickMethod.postmessage → b.postmessage_fail_count ≤ 2) ∧
    ∀ (msg : PostEnv) (hw : TeleportEnv) (w : MouseWorld) (t : ℤ × ℤ),
      (b.click_method = ClickMethod.postmessage → send_click_message msg = false →
        (touchStep b msg hw w t).1.state.postmessage_fail_count =
          b.postmessage_fail_count + 1) ∧
      (b.click_method = ClickMethod.postmessage → send_click_message msg = true →
        (touchStep b msg hw w t).1.ok = true ∧
        (touchStep b msg hw w t).1.state.postmessage_fail_count = 0 ∧
        (touchStep b msg hw w t).1.state.click_method = ClickMethod.postmessage) ∧
      (b.click_method = ClickMethod.postmessage →
        ((touchStep b msg hw w t).1.state.click_method = ClickMethod.sendinput ↔
          (touchStep b msg hw w t).1.state.postmessage_fail_count = 3)) ∧
      (b.click_method = ClickMethod.postmessage →
        ((touchStep b msg hw w t).1.used_hardware = true ↔
          (send_click_message msg = false ∧ b.postmessage_fail_count = 2))) ∧
      (b.click_method = ClickMethod.postmessage → send_click_message msg = false →
        b.postmessage_fail_count + 1 < 3 →
        (touchStep b msg hw w t).1.ok = false ∧
        (touchStep b msg hw w t).1.used_hardware = false) ∧
      (b.click_method = ClickMethod.sendinput →
        (touchStep b msg hw w t).1.used_hardware = true ∧
        (touchStep b msg hw w t).1.used_message = false ∧
        (touchStep b msg hw w t).1.state.click_method = ClickMethod.sendinput) := by
  obtain ⟨hmax, hcnt⟩ := reachableBinding_inv b hb
  refine ⟨hmax, hcnt, ?_⟩
  intro msg hw w t
  obtain ⟨cm, cnt, mx⟩ := b
  have hmx : mx = 3 := hmax
  subst hmx
  cases cm with
  | postmessage =>
    have hc2 : cnt ≤ 2 := hcnt rfl
    rw [touchStep_postmessage]
    by_cases hs : send_click_message msg = true
    · rw [if_pos hs]
      refine ⟨fun _ hf => absurd hs (by simp [hf]), fun _ _ => ⟨rfl, rfl, rfl⟩,
        fun _ => ?_, fun _ => ?_, fun _ hf => absurd hs (by simp [hf]),
        fun h => absurd h (by simp)⟩
      · constructor
        · intro h
          exact absurd h (by simp)
        · intro h
          exact absurd h (by simp)
      · constructor
        · intro h
          exact absurd h (by simp)
        · intro h
          exact absurd hs (by simp [h.1])
    · have hs' : send_click_message msg = false := by simpa using hs
      rw [if_neg hs]
      by_cases hth : (3 : ℕ) ≤ cnt + 1
      · rw [if_pos hth]
        have hc : cnt = 2 := by omega
        refine ⟨fun _ _ => rfl, fun _ ht => absurd ht (by simp [hs']),
          fun _ => ?_, fun _ => ?_,
          fun _ _ hlt => absurd (show cnt + 1 < 3 from hlt) (by omega),
          fun h => absurd h (by simp)⟩
        · constructor
          · intro _
            change cnt + 1 = 3
            omega
          · intro _
            rfl
        · exact ⟨fun _ => ⟨hs', hc⟩, fun _ => rfl⟩
      · rw [if_neg hth]
        refine ⟨fun _ _ => rfl, fun _ ht => absurd ht (by simp [hs']),
          fun _ => ?_, fun _ => ?_, fun _ _ _ => ⟨rfl, rfl⟩,
          fun h => absurd h (by simp)⟩
        · constructor
          · intro h
            exact absurd h (by simp)
          · intro h
            have h3 : cnt + 1 = 3 := h
            omega
        · constructor
          · intro h
            exact absurd h (by simp)
          · intro h
            have h2 : cnt = 2 := h.2
            exact absurd h2 (by omega)
  | sendinput =>
    rw [touchStep_sendinput]
    exact ⟨fun h _ => absurd h (by simp), fun h _ => absurd h (by simp),
      fun h => absurd h (by simp), fun h => absurd h (by simp),
      fun h _ _ => absurd h (by simp), fun _ => ⟨rfl, rfl, rfl⟩⟩

/-! ## Exception behaviour of the three operations
(`touch`, `keyevent`, `type` in `background_windows.py`) -/

/-- The whole of `BackgroundWindows.touch` (lines 245-393).  Without a
bound handle the default implementation is delegated to inside a
`try/except` that converts a raise into `False` (lines 256-261).  With a
handle, the coordinate pipeline and the delivery branch all run inside the
`try` at line 263 whose handler (line 389) returns `False`, so no exception
escapes: `pre_ok` is the joint outcome of the window/client rectangle
queries and the coordinate conversion that precede the delivery branch. -/
def touchRun (has_hwnd pre_ok : Bool) (delegate : Except PyErr Bool)
    (b : Binding) (msg : PostEnv) (hw : TeleportEnv) (w : MouseWorld)
    (t : ℤ × ℤ) : Except PyErr Bool × Binding × MouseWorld :=
  if ¬ has_hwnd then
    match delegate with
    | Except.ok v => (Except.ok v, b, w)
    | Except.error _ => (Except.ok false, b, w)
  else if ¬ pre_ok then
    (Except.ok false, b, w)
  else
    let r := touchStep b msg hw w t
    (Except.ok r.1.ok, r.1.state, r.2)

/-- Environment of one `BackgroundWindows.keyevent` call (lines 533-604):
whether a handle is bound, whether the key name appears in `key_map`, the
outcomes of the key-down and key-up `PostMessage` calls, and the outcome of
the inherited default implementation used for delegation. -/
structure KeyEnv where
  has_hwnd : Bool
  mapped : Bool
  keydown_ok : Bool
  keyup_ok : Bool
  delegate : Except PyErr Bool

/-- `BackgroundWindows.keyevent`: no handle or an unmapped key delegates to
the default implementation (whose exception, if any, propagates); a mapped
key posts key-down then key-up with NO surrounding `try/except`, so a
raising post propagates to the caller. -/
def keyevent (e : KeyEnv) : Except PyErr Bool :=
  if ¬ e.has_hwnd then e.delegate
  else if e.mapped then
    (postCall e.keydown_ok).bind fun _ =>
    (postCall e.keyup_ok).bind fun _ =>
    Except.ok true
  else e.delegate

/-- Environment of one `BackgroundWindows.type` call (lines 606-628): the
text, the outcome of the `WM_CHAR` post for each character index, and the
inherited default implementation as a function of the text passed to it. -/
structure TypeEnv where
  has_hwnd : Bool
  text : List Char
  post_ok : ℕ → Bool
  delegate : List Char → Except PyErr Bool

/-- `BackgroundWindows.type`: no handle delegates directly (line 616,
unguarded).  With a handle the per-character posts run inside `try`; if
every post returns the call reports `True`, and if any raises the handler
(line 624) delegates the ENTIRE text to the default implementation and
returns its outcome — a raise inside that fallback propagates. -/
def typeText (e : TypeEnv) : Except PyErr Bool :=
  if ¬ e.has_hwnd then e.delegate e.text
  else if (List.range e.text.length).all e.post_ok then Except.ok true
  else e.delegate e.text

/-- Claim C9 counterexample: a `keyevent` on a bound handle with a mapped
key whose key-down post raises propagates the exception to the caller
instead of returning a boolean. -/
theorem C9_keyevent_raises_counterexample :
    keyevent ⟨true, true, false, true, Except.ok true⟩ =
      Except.error PyErr.postError := rfl

/-- Claim C9 amended: only the click operation is fully exception-proof —
`touch` converts every internal exception into a boolean result on all
paths; `keyevent` propagates a raising key post to the caller, and `type`
propagates a raise of its fallback delegation. -/
theorem C9_boolean_outcomes (has_hwnd pre_ok : Bool) (delegate : Except PyErr Bool)
    (b : Binding) (msg : PostEnv) (hw : TeleportEnv) (w : MouseWorld) (t : ℤ × ℤ)
    (ke : KeyEnv) (te : TypeEnv) :
    (∃ v, (touchRun has_hwnd pre_ok delegate b msg hw w t).1 = Except.ok v) ∧
    (ke.has_hwnd = true → ke.mapped = true → ke.keydown_ok = false →
      keyevent ke = Except.error PyErr.postError) ∧
    (∀ err : PyErr, te.has_hwnd = true →
      (List.range te.text.length).all te.post_ok = false →
      te.delegate te.text = Except.error err →
      typeText te = Except.error err) := by
  refine ⟨?_, ?_, ?_⟩
  · cases has_hwnd with
    | false =>
      cases delegate with
      | ok v => exact ⟨v, rfl⟩
      | error _ => exact ⟨false, rfl⟩
    | true =>
      cases pre_ok with
      | false => exact ⟨false, rfl⟩
      | true => exact ⟨(touchStep b msg hw w t).1.ok, rfl⟩
  · intro hh hm hk
    simp [keyevent, hh, hm, hk, postCall, Except.bind]
  · intro err hh hall hd
    simp [typeText, hh, hall, hd]

/-- Witness for C9 amended: a concrete bound `touch` returning a boolean, a
concrete raising `keyevent`, and a concrete `type` whose failing fallback
propagates. -/
theorem C9_boolean_outcomes_witness :
    (∃ v, (touchRun true true (Except.ok true) initBinding ⟨true, true, true, true⟩
        ⟨true, true, true, true, true⟩ ⟨(0, 0)⟩ (0, 0)).1 = Except.ok v) ∧
    keyevent ⟨true, true, false, true, Except.ok true⟩ =
      Except.error PyErr.postError ∧
    typeText ⟨true, [], fun _ => false, fun _ => Except.error PyErr.delegateError⟩ =
      Except.ok true := by
  have h := C9_boolean_outcomes true true (Except.ok true) initBinding
    ⟨true, true, true, true⟩ ⟨true, true, true, true, true⟩ ⟨(0, 0)⟩ (0, 0)
    ⟨true, true, false, true, Except.ok true⟩
    ⟨true, [], fun _ => false, fun _ => Except.error PyErr.delegateError⟩
  exact ⟨h.1, h.2.1 rfl rfl rfl, rfl⟩

/-- Claim C10: when some character post raises during `type` on a bound
handle, the call does not report failure; it returns exactly the outcome of
the inherited default implementation applied to the ENTIRE text. -/
theorem C10_type_fallback_delegates (e : TypeEnv) (hh : e.has_hwnd = true)
    (i : ℕ) (hi : i < e.text.length) (hp : e.post_ok i = false) :
    typeText e = e.delegate e.text := by
  have hall : (List.range e.text.length).all e.post_ok = false := by
    cases hcase : (List.range e.text.length).all e.post_ok with
    | false => rfl
    | true =>
      have := List.all_eq_true.mp hcase i (List.mem_range.mpr hi)
      simp [hp] at this
  simp [typeText, hh, hall]

/-- Witness for C10: with both character posts raising and a default
implementation that succeeds, the whole-text delegation makes the call
report success. -/
theorem C10_type_fallback_delegates_witness :
    typeText ⟨true, [Char.ofNat 97, Char.ofNat 98], fun _ => false,
        fun _ => Except.ok true⟩ = Except.ok true := by
  have h := C10_type_fallback_delegates
    ⟨true, [Char.ofNat 97, Char.ofNat 98], fun _ => false, fun _ => Except.ok true⟩
    rfl 0 (by decide) rfl
  simpa using h

/-! ## Concurrent teleports (`click_background_fallback` has no lock) -/

/-- One in-flight teleport click, reduced to its cursor-relevant program
counter: 0 = about to `GetCursorPos` (save), 1 = about to `SetCursorPos`
to the target, 2 = about to press (no cursor change), 3 = about to hit the
raising hold step (no cursor change), 4 = in the handler, about to
`SetCursorPos(original_pos)`, 5 = finished. -/
structure Teleporter where
  pc : ℕ
  saved : ℤ × ℤ
  target : ℤ × ℤ
deriving DecidableEq, Repr

/-- Execute the current step of one teleporter against the shared system
cursor, following the source line by line; no step acquires any lock
because `independent_mouse.py` contains none. -/
def teleporterStep (c : ℤ × ℤ) (th : Teleporter) : (ℤ × ℤ) × Teleporter :=
  match th.pc with
  | 0 => (c, ⟨1, c, th.target⟩)
  | 1 => (th.target, ⟨2, th.saved, th.target⟩)
  | 2 => (c, ⟨3, th.saved, th.target⟩)
  | 3 => (c, ⟨4, th.saved, th.target⟩)
  | 4 => (th.saved, ⟨5, th.saved, th.target⟩)
  | _ => (c, th)

/-- Two concurrent `click_background_fallback` calls sharing the one
system cursor. -/
structure TwoTeleports where
  cursor : ℤ × ℤ
  t1 : Teleporter
  t2 : Teleporter
deriving DecidableEq, Repr

/-- Run one scheduled step: `false` advances the first caller, `true` the
second. -/
def schedStep (s : TwoTeleports) (who : Bool) : TwoTeleports :=
  if who then
    let r := teleporterStep s.cursor s.t2
    ⟨r.1, s.t1, r.2⟩
  else
    let r := teleporterStep s.cursor s.t1
    ⟨r.1, r.2, s.t2⟩

/-- Run a whole schedule. -/
def runSched (s : TwoTeleports) : List Bool → TwoTeleports
  | [] => s
  | who :: rest => runSched (schedStep s who) rest

/-- Claim C7 evaluated at the failing interleaving: the source takes no
lock, so after the first caller (initial cursor `(0,0)`, target
`(100,100)`) has saved and moved but not yet restored, the second caller's
`GetCursorPos` captures `(100,100)` — the first caller's mid-teleport
target, not a position the first caller restored to (it will restore to
`(0,0)`). -/
theorem C7_interleaved_save_corruption :
    (runSched ⟨(0, 0), ⟨0, (0, 0), (100, 100)⟩, ⟨0, (0, 0), (200, 200)⟩⟩
        [false, false, true]).t2.saved = (100, 100) ∧
    (runSched ⟨(0, 0), ⟨0, (0, 0), (100, 100)⟩, ⟨0, (0, 0), (200, 200)⟩⟩
        [false, false, true]).t1.pc = 2 ∧
    (runSched ⟨(0, 0), ⟨0, (0, 0), (100, 100)⟩, ⟨0, (0, 0), (200, 200)⟩⟩
        [false, false, true]).t1.saved = (0, 0) ∧
    ((100, 100) : ℤ × ℤ) ≠ (0, 0) := by
  refine ⟨rfl, rfl, rfl, by decide⟩

/-- Witness for C1: from the fresh binding, a click whose move post raises
increments the failure counter from 0 to 1, reports failure and performs no
hardware retry. -/
theorem C1_escalation_state_machine_witness :
    (touchStep initBinding ⟨false, true, true, true⟩ ⟨true, true, true, true, true⟩
        ⟨(0, 0)⟩ (0, 0)).1.state.postmessage_fail_count =
      initBinding.postmessage_fail_count + 1 ∧
    (touchStep initBinding ⟨false, true, true, true⟩ ⟨true, true, true, true, true⟩
        ⟨(0, 0)⟩ (0, 0)).1.ok = false ∧
    (touchStep initBinding ⟨false, true, true, true⟩ ⟨true, true, true, true, true⟩
        ⟨(0, 0)⟩ (0, 0)).1.used_hardware = false := by
  have h := (C1_escalation_state_machine initBinding ReachableBinding.init).2.2
    ⟨false, true, true, true⟩ ⟨true, true, true, true, true⟩ ⟨(0, 0)⟩ (0, 0)
  have hfail : send_click_message ⟨false, true, true, true⟩ = false := rfl
  have hlt : initBinding.postmessage_fail_count + 1 < 3 := by decide
  exact ⟨h.1 rfl hfail, (h.2.2.2.2.1 rfl hfail hlt).1, (h.2.2.2.2.1 rfl hfail hlt).2⟩

end GameScript
